import Mathlib

/-!
Verification of the servicefs messaging core (drivers/staging/servicefs).

The development shallowly embeds the dispatch and lifecycle code of
`file.c` together with the data model of `servicefs_private.h`.  The
bodies of the service-side handlers (service.c) are not part of the
sources; where a definition has to stand in for them it is modelled
from the specification and marked as such in its doc comment.  Calls
into that missing layer are recorded as explicit `Action` values and
their return codes are supplied as oracle inputs, so every theorem
quantifies over all possible behaviours of the missing layer.
-/

namespace Servicefs

/-! ## Error codes (Linux errno values) -/

def EINVAL : Int := 22

def ENOTTY : Int := 25

def EFAULT : Int := 14

def ENOMEM : Int := 12

def ECANCELED : Int := 125

/-! ## Poll event bits (Linux asm-generic poll.h) -/

def POLLIN : Nat := 1

def POLLRDNORM : Nat := 64

/-! ## Task states used by the sendv wrappers (linux/sched.h) -/

def TASK_INTERRUPTIBLE : Nat := 1

def TASK_UNINTERRUPTIBLE : Nat := 2

/-! ## iovec limits (linux/uio.h) -/

def UIO_FASTIOV : Nat := 8

def UIO_MAXIOV : Nat := 1024

/-! ## Service flags, from servicefs_private.h -/

def SERVICE_FLAGS_CANCELED : Nat := 1

def SERVICE_FLAGS_OPEN_NOTIFY : Nat := 2

def SERVICE_FLAGS_CLOSE_NOTIFY : Nat := 4

def SERVICE_FLAGS_DEFAULT : Nat :=
  SERVICE_FLAGS_OPEN_NOTIFY ||| SERVICE_FLAGS_CLOSE_NOTIFY

/-- Modelled from the spec: the two reserved internal attach/detach
notification operation codes (`SERVICEFS_OP_UNIX_OPEN` and
`SERVICEFS_OP_UNIX_CLOSE` from servicefs_ioctl.h, which is not among
the sources).  The spec only requires that they are two distinct
values used internally for lifecycle notification; the concrete
numbers are immaterial to every theorem below. -/
def SERVICEFS_OP_UNIX_OPEN : Int := -1

/-- Modelled from the spec: see `SERVICEFS_OP_UNIX_OPEN`. -/
def SERVICEFS_OP_UNIX_CLOSE : Int := -2

/-! ## ioctl command encoding (standard Linux _IOC layout: nr in bits
0-7, type in bits 8-15). -/

def ioc_type (cmd : Nat) : Nat := (cmd >>> 8) &&& 255

def ioc_nr (cmd : Nat) : Nat := cmd &&& 255

/-- The ioctl type byte used by servicefs: the character x. -/
def SERVICEFS_IOC_TYPE : Nat := 120

/-- Modelled from the spec: the concrete ioctl numbers come from
servicefs_ioctl.h, which is not among the sources.  They are chosen
with type byte x and distinct nrs not exceeding
`SERVICEFS_IOCTL_MAX_NR`, as the dispatch code in file.c requires. -/
def SERVICEFS_IOCTL_MAX_NR : Nat := 17

def SERVICEFS_MSG_SENDV : Nat := SERVICEFS_IOC_TYPE * 256 + 0

def SERVICEFS_MSG_SEND_IMPULSE : Nat := SERVICEFS_IOC_TYPE * 256 + 1

def SERVICEFS_SET_SERVICE_CONTEXT : Nat := SERVICEFS_IOC_TYPE * 256 + 2

def SERVICEFS_SET_CHANNEL_CONTEXT : Nat := SERVICEFS_IOC_TYPE * 256 + 3

def SERVICEFS_MSG_RECV : Nat := SERVICEFS_IOC_TYPE * 256 + 4

def SERVICEFS_MSG_READV : Nat := SERVICEFS_IOC_TYPE * 256 + 5

def SERVICEFS_MSG_WRITEV : Nat := SERVICEFS_IOC_TYPE * 256 + 6

def SERVICEFS_MSG_SEEK : Nat := SERVICEFS_IOC_TYPE * 256 + 7

def SERVICEFS_MSG_BUSV : Nat := SERVICEFS_IOC_TYPE * 256 + 8

def SERVICEFS_MSG_REPLY : Nat := SERVICEFS_IOC_TYPE * 256 + 9

def SERVICEFS_MSG_REPLY_FD : Nat := SERVICEFS_IOC_TYPE * 256 + 10

def SERVICEFS_MOD_CHANNEL_EVENTS : Nat := SERVICEFS_IOC_TYPE * 256 + 11

def SERVICEFS_MSG_PUSH_FD : Nat := SERVICEFS_IOC_TYPE * 256 + 12

def SERVICEFS_MSG_GET_FD : Nat := SERVICEFS_IOC_TYPE * 256 + 13

def SERVICEFS_PUSH_CHANNEL : Nat := SERVICEFS_IOC_TYPE * 256 + 14

def SERVICEFS_CLOSE_CHANNEL : Nat := SERVICEFS_IOC_TYPE * 256 + 15

def SERVICEFS_CHECK_CHANNEL : Nat := SERVICEFS_IOC_TYPE * 256 + 16

def SERVICEFS_CANCEL_SERVICE : Nat := SERVICEFS_IOC_TYPE * 256 + 17

/-! ## Data model, from struct impulse / struct message / struct service
in servicefs_private.h.  Kernel-internal fields that carry no protocol
state (wait queues, mutexes, task pointers, list nodes) are left out:
membership in a queue is represented by membership in the respective
list, and channel pointers by channel ids. -/

/-- struct impulse: a queued one-way notification. -/
structure Impulse where
  i_pid : Nat
  i_tid : Nat
  i_euid : Nat
  i_egid : Nat
  i_channel : Nat
  i_op : Int
  i_data : List Int
  i_len : Nat
deriving DecidableEq

/-- struct message: a queued synchronous transaction.  Buffer vectors
are abstracted to their element counts; `m_channel = none` models a
detached message whose owning channel was removed. -/
structure Message where
  m_id : Nat
  m_priority : Int
  m_pid : Nat
  m_tid : Nat
  m_channel : Option Nat
  m_op : Int
  m_scnt : Nat
  m_rcnt : Nat
  m_fdcnt : Nat
  m_completed : Bool
  m_interrupted : Bool
  m_status : Int
deriving DecidableEq

/-- struct service: reference count, flags, connected channels (by id)
and the three queues (pending impulses, pending messages, active
messages), exactly as laid out in servicefs_private.h. -/
structure Service where
  s_count : Int
  s_flags : Nat
  s_channels : List Nat
  s_impulses : List Impulse
  s_messages : List Message
  s_active : List Message
deriving DecidableEq

def isServiceCanceled (svc : Service) : Bool :=
  svc.s_flags &&& SERVICE_FLAGS_CANCELED ≠ 0

/-! ## Calls into the missing service-core layer.

file.c calls `servicefs_msg_sendv` (via its interruptible and
uninterruptible wrappers from servicefs_private.h) and
`servicefs_msg_send_impulse`, whose bodies are not among the sources.
Each such call is recorded as an `Action`, and its return value is an
oracle input of the embedding, so theorems hold for every behaviour of
the missing layer. -/

/-- A call from file.c into the message-sending layer.
`sendv taskState cid op scnt rcnt fdcnt` records a call to
`servicefs_msg_sendv` on channel `cid` with the given operation code,
vector element counts and blocking mode; `sendImpulse cid op len`
records a call to `servicefs_msg_send_impulse`. -/
inductive Action where
  | sendv (taskState : Nat) (cid : Nat) (op : Int) (scnt rcnt fdcnt : Nat)
  | sendImpulse (cid : Nat) (op : Int) (len : Nat)
deriving DecidableEq

/-- Smallest non-negative integer not in `l`: the id allocation
discipline of the idr allocators (spec section 4.1). -/
def firstFree (l : List Nat) : Nat :=
  ((List.range (l.length + 1)).filter (fun n => n ∉ l)).headI

/-- Modelled from the spec: `get_new_channel` (service.c, not among the
sources).  Per spec section 4.3, attach fails if the service is dead and
otherwise allocates a channel id and links the channel into the
service's channel set. -/
def get_new_channel (svc : Service) : Option (Nat × Service) :=
  if isServiceCanceled svc then
    none
  else
    let cid := firstFree svc.s_channels
    some (cid, { svc with s_channels := svc.s_channels ++ [cid] })

/-- Modelled from the spec: `remove_channel` (service.c, not among the
sources).  Per spec section 4.3, detach removes the channel from the
service's channel set and releases its id. -/
def remove_channel (svc : Service) (cid : Nat) : Service :=
  { svc with s_channels := svc.s_channels.filter (fun x => x ≠ cid) }

/-! ## File roles.

A file object on a service inode carries one of three file_operations
tables; which table it carries decides which operation set the file
answers. -/

inductive FileOps where
  | initialOps
  | serviceOps
  | channelOps
deriving DecidableEq

/-- Result of an open-style file operation: return code, the
file_operations table left on the file, the updated service state and
the calls made into the sending layer (in program order, all of them
before the function returns). -/
structure OpenOut where
  ret : Int
  fop : FileOps
  svc : Service
  actions : List Action
deriving DecidableEq

/-- Embedding of `initial_open` (file.c).  `svcPresent` models the
`inode->i_private` null check; `notifyRes` is the oracle return value
of `servicefs_msg_sendv_uninterruptible` for the open-notification
call.  The action list is the exact sequence of calls into the sending
layer performed before `initial_open` returns. -/
def initial_open (svcPresent : Bool) (svc : Service) (notifyRes : Int) : OpenOut :=
  if svcPresent then
    if svc.s_count + 1 = 1 then
      ⟨0, .serviceOps, { svc with s_count := svc.s_count + 1 }, []⟩
    else
      match get_new_channel { svc with s_count := svc.s_count + 1 } with
      | none => ⟨-EINVAL, .initialOps, { svc with s_count := svc.s_count + 1 }, []⟩
      | some (cid, svc2) =>
        if svc2.s_flags &&& SERVICE_FLAGS_OPEN_NOTIFY ≠ 0 then
          ⟨notifyRes, .channelOps, svc2,
            [.sendv TASK_UNINTERRUPTIBLE cid SERVICEFS_OP_UNIX_OPEN 0 0 0]⟩
        else
          ⟨0, .channelOps, svc2, []⟩
  else
    ⟨-EINVAL, .initialOps, svc, []⟩

/-- Embedding of `create_channel_open` (file.c): always creates a new
channel and never sends the creation notification; the file is left on
`initial_file_operations` until `servicefs_complete_channel_setup`. -/
def create_channel_open (svcPresent : Bool) (svc : Service) : OpenOut :=
  if svcPresent then
    match get_new_channel { svc with s_count := svc.s_count + 1 } with
    | none => ⟨-EINVAL, .initialOps, { svc with s_count := svc.s_count + 1 }, []⟩
    | some (_cid, svc2) => ⟨0, .initialOps, svc2, []⟩
  else
    ⟨-EINVAL, .initialOps, svc, []⟩

/-- Embedding of `servicefs_complete_channel_setup` (file.c): switches
the new file to the channel operation table. -/
def servicefs_complete_channel_setup (fop : FileOps) : FileOps :=
  match fop with
  | _ => .channelOps

/-- Embedding of `servicefs_create_channel` (file.c): allocate a file
(`allocOk` is the oracle for `alloc_file`) and run
`create_channel_open` on the service inode; on failure the file is
dropped and the error returned. -/
def servicefs_create_channel (allocOk : Bool) (svc : Service) : Option OpenOut :=
  if allocOk then
    if (create_channel_open true svc).ret < 0 then
      none
    else
      some (create_channel_open true svc)
  else
    none

/-- Embedding of `channel_release` (file.c): decrement the count, send
the best-effort close notification when the service asks for it (the
return value of the uninterruptible send is discarded by a void cast),
then `remove_channel`; always returns 0 once the service pointer check
passed. -/
structure ReleaseOut where
  ret : Int
  svc : Service
  actions : List Action
deriving DecidableEq

def channel_release (svcPresent : Bool) (svc : Service) (cid : Nat)
    (notifyRes : Int) : ReleaseOut :=
  if svcPresent then
    ⟨0, remove_channel { svc with s_count := svc.s_count - 1 } cid,
      if svc.s_flags &&& SERVICE_FLAGS_CLOSE_NOTIFY ≠ 0 then
        [.sendv TASK_UNINTERRUPTIBLE cid SERVICEFS_OP_UNIX_CLOSE 0 0 0]
      else
        []⟩
  else
    ⟨-EINVAL, svc, []⟩

/-- Embedding of `service_poll` (file.c): the mask starts at 0 and
becomes POLLIN|POLLRDNORM exactly when the impulse queue or the
pending message queue is non-empty. -/
def service_poll (svc : Service) : Nat :=
  if ¬svc.s_impulses.isEmpty ∨ ¬svc.s_messages.isEmpty then
    POLLIN ||| POLLRDNORM
  else
    0

/-! ## channel_ioctl (file.c).

The ioctl argument is a user pointer to a per-command parameter
struct; pointers inside the structs are modelled by a Bool that is
true when the pointer is non-null, together with the declared counts.
The outcomes of `copy_from_user`, `rw_copy_check_uvector`, `kmalloc`
and of the two sending-layer entry points are oracle inputs.  The
compat ioctl path performs the identical validation and dispatch and
is covered by the same embedding. -/

/-- struct servicefs_msg_sendv_struct: op code, send vector pointer and
count, receive vector pointer and count, fd array pointer and count. -/
structure SendvParams where
  op : Int
  svec : Bool
  scnt : Nat
  rvec : Bool
  rcnt : Nat
  fds : Bool
  fdcnt : Nat
deriving DecidableEq

/-- struct servicefs_msg_send_impulse_struct: op code, payload buffer
pointer and length. -/
structure ImpulseParams where
  op : Int
  buf : Bool
  len : Nat
deriving DecidableEq

/-- Oracle outcomes for the fallible steps inside `channel_ioctl`:
`copyOk` for the `copy_from_user` of the parameter struct,
`svecCheck`/`rvecCheck` for the two `rw_copy_check_uvector` calls
(negative means failure, as in the source), `kmallocOk` for the slow
fd-array allocation, `fdsCopyOk` for the `copy_from_user` of
the fd array, and the return values of the two sending entry points. -/
structure IoctlOracle where
  copyOk : Bool
  svecCheck : Int
  rvecCheck : Int
  kmallocOk : Bool
  fdsCopyOk : Bool
  sendvRes : Int
  impulseRes : Int
deriving DecidableEq

/-- Embedding of `channel_ioctl` (file.c) for the channel `cid` behind
the file.  Returns the ioctl return value and the calls made into the
sending layer (empty whenever the call failed validation, so no
message or impulse object is ever created on those paths). -/
def channel_ioctl (cid : Nat) (cmd : Nat) (sp : SendvParams)
    (ip : ImpulseParams) (o : IoctlOracle) : Int × List Action :=
  if ioc_type cmd ≠ SERVICEFS_IOC_TYPE then
    (-ENOTTY, [])
  else if SERVICEFS_IOCTL_MAX_NR < ioc_nr cmd then
    (-ENOTTY, [])
  else if cmd = SERVICEFS_MSG_SENDV then
    if ¬o.copyOk then
      (-EFAULT, [])
    else if sp.op = SERVICEFS_OP_UNIX_OPEN ∨ sp.op = SERVICEFS_OP_UNIX_CLOSE
        ∨ (¬sp.svec ∧ sp.scnt ≠ 0) ∨ (¬sp.rvec ∧ sp.rcnt ≠ 0)
        ∨ (¬sp.fds ∧ sp.fdcnt ≠ 0) then
      (-EINVAL, [])
    else if sp.svec ∧ o.svecCheck < 0 then
      (o.svecCheck, [])
    else if sp.rvec ∧ o.rvecCheck < 0 then
      (o.rvecCheck, [])
    else if sp.fds ∧ UIO_MAXIOV < sp.fdcnt then
      (-EINVAL, [])
    else if sp.fds ∧ UIO_FASTIOV < sp.fdcnt ∧ ¬o.kmallocOk then
      (-ENOMEM, [])
    else if sp.fds ∧ ¬o.fdsCopyOk then
      (-EFAULT, [])
    else
      (o.sendvRes,
        [.sendv TASK_INTERRUPTIBLE cid sp.op sp.scnt sp.rcnt sp.fdcnt])
  else if cmd = SERVICEFS_MSG_SEND_IMPULSE then
    if ¬o.copyOk then
      (-EFAULT, [])
    else if ip.op = SERVICEFS_OP_UNIX_OPEN ∨ ip.op = SERVICEFS_OP_UNIX_CLOSE
        ∨ (¬ip.buf ∧ ip.len ≠ 0) then
      (-EINVAL, [])
    else
      (o.impulseRes, [.sendImpulse cid ip.op ip.len])
  else
    (-ENOTTY, [])

/-! ## service_ioctl (file.c).

The handler bodies live in the missing service.c, so each known
command forwards to an oracle return value after its `copy_from_user`
and (for readv/writev) `rw_copy_check_uvector` steps; the dispatch
structure (type-byte check, nr bound check, known command set, -ENOTTY
default) is taken verbatim from the source. -/

structure ServiceIoctlOracle where
  copyOk : Bool
  vecCheck : Int
  handlerRes : Int
deriving DecidableEq

/-- The service commands whose case body begins with a
`copy_from_user` of a parameter struct. -/
def serviceCmdCopiesParams (cmd : Nat) : Bool :=
  cmd = SERVICEFS_SET_CHANNEL_CONTEXT ∨ cmd = SERVICEFS_MSG_READV
    ∨ cmd = SERVICEFS_MSG_WRITEV ∨ cmd = SERVICEFS_MSG_SEEK
    ∨ cmd = SERVICEFS_MSG_BUSV ∨ cmd = SERVICEFS_MSG_REPLY
    ∨ cmd = SERVICEFS_MSG_REPLY_FD ∨ cmd = SERVICEFS_MOD_CHANNEL_EVENTS
    ∨ cmd = SERVICEFS_MSG_PUSH_FD ∨ cmd = SERVICEFS_MSG_GET_FD
    ∨ cmd = SERVICEFS_PUSH_CHANNEL ∨ cmd = SERVICEFS_CHECK_CHANNEL

/-- The full service-side command set dispatched by `service_ioctl`. -/
def serviceCmds : List Nat :=
  [SERVICEFS_SET_SERVICE_CONTEXT, SERVICEFS_SET_CHANNEL_CONTEXT,
   SERVICEFS_MSG_RECV, SERVICEFS_MSG_READV, SERVICEFS_MSG_WRITEV,
   SERVICEFS_MSG_SEEK, SERVICEFS_MSG_BUSV, SERVICEFS_MSG_REPLY,
   SERVICEFS_MSG_REPLY_FD, SERVICEFS_MOD_CHANNEL_EVENTS,
   SERVICEFS_MSG_PUSH_FD, SERVICEFS_MSG_GET_FD, SERVICEFS_PUSH_CHANNEL,
   SERVICEFS_CLOSE_CHANNEL, SERVICEFS_CHECK_CHANNEL,
   SERVICEFS_CANCEL_SERVICE]

/-- The channel-side command set dispatched by `channel_ioctl`. -/
def channelCmds : List Nat :=
  [SERVICEFS_MSG_SENDV, SERVICEFS_MSG_SEND_IMPULSE]

/-- Embedding of `service_ioctl` (file.c): dispatch skeleton with the
handler results supplied by the oracle. -/
def service_ioctl (cmd : Nat) (o : ServiceIoctlOracle) : Int :=
  if ioc_type cmd ≠ SERVICEFS_IOC_TYPE then
    -ENOTTY
  else if SERVICEFS_IOCTL_MAX_NR < ioc_nr cmd then
    -ENOTTY
  else if cmd ∈ serviceCmds then
    if serviceCmdCopiesParams cmd ∧ ¬o.copyOk then
      -EFAULT
    else if (cmd = SERVICEFS_MSG_READV ∨ cmd = SERVICEFS_MSG_WRITEV)
        ∧ o.vecCheck < 0 then
      o.vecCheck
    else
      o.handlerRes
  else
    -ENOTTY

/-! ## Send enqueueing and delivery order.

`servicefs_msg_sendv` and `servicefs_msg_send_impulse` (service.c) are
not among the sources; their enqueue steps are modelled from the spec.
The queues they feed are the ones of `struct service`
(servicefs_private.h): the pending message list and the impulse list,
two separate FIFO lists. -/

/-- The request content of one `servicefs_msg_sendv` call, before a
message id is allocated for it. -/
structure MsgReq where
  r_priority : Int
  r_pid : Nat
  r_tid : Nat
  r_channel : Nat
  r_op : Int
  r_scnt : Nat
  r_rcnt : Nat
  r_fdcnt : Nat
deriving DecidableEq

/-- The message built for a request once the service's message-id
allocator has issued `id` for it. -/
def mkMessage (r : MsgReq) (id : Nat) : Message :=
  ⟨id, r.r_priority, r.r_pid, r.r_tid, some r.r_channel, r.r_op,
    r.r_scnt, r.r_rcnt, r.r_fdcnt, false, false, 0⟩

/-- The id the service's message-id allocator issues next: the
smallest id not used by any pending or active message (spec section
4.1). -/
def nextMsgId (svc : Service) : Nat :=
  firstFree ((svc.s_messages ++ svc.s_active).map Message.m_id)

/-- Modelled from the spec: the enqueue step of `servicefs_msg_sendv`
(service.c, not among the sources).  Per spec sections 4.4 and 5, the
new message is appended at the tail of the service's pending message
queue (FIFO). -/
def enqueue_message (svc : Service) (r : MsgReq) : Service :=
  { svc with s_messages := svc.s_messages ++ [mkMessage r (nextMsgId svc)] }

/-- Modelled from the spec: the enqueue step of
`servicefs_msg_send_impulse` (service.c, not among the sources).  Per
spec section 4.7, the impulse is appended at the tail of the service's
impulse queue (FIFO). -/
def enqueue_impulse (svc : Service) (i : Impulse) : Service :=
  { svc with s_impulses := svc.s_impulses ++ [i] }

/-- One send operation arriving at the service: a transaction request
or an impulse. -/
inductive SendEvent where
  | msg (r : MsgReq)
  | imp (i : Impulse)
deriving DecidableEq

/-- Apply a sequence of sends to a service state. -/
def runSends (svc : Service) (h : List SendEvent) : Service :=
  h.foldl
    (fun s e =>
      match e with
      | .msg r => enqueue_message s r
      | .imp i => enqueue_impulse s i)
    svc

/-- An item a receiver can dequeue: either an impulse or a message. -/
abbrev Item := Sum Impulse Message

/-- The objects enqueued by a send history, in send order, with the
message ids they were assigned. -/
def sentItems (svc : Service) : List SendEvent → List Item
  | [] => []
  | .msg r :: t =>
      Sum.inr (mkMessage r (nextMsgId svc)) :: sentItems (enqueue_message svc r) t
  | .imp i :: t =>
      Sum.inl i :: sentItems (enqueue_impulse svc i) t

/-- Dequeue repeatedly with a receive policy `next`, collecting the
items delivered. -/
def drain (next : Service → Option (Item × Service)) :
    Nat → Service → List Item
  | 0, _ => []
  | n + 1, svc =>
    match next svc with
    | none => []
    | some (it, svc1) => it :: drain next n svc1

/-- A live service with no channels and empty queues. -/
def emptyService : Service := ⟨1, SERVICE_FLAGS_DEFAULT, [], [], [], []⟩

/-- The impulses of a send history, in send order. -/
def impulsesOf (h : List SendEvent) : List Impulse :=
  h.filterMap (fun e => match e with | .imp i => some i | .msg _ => none)

/-- The operation codes of the transaction sends of a history, in send
order. -/
def msgOpsOf (h : List SendEvent) : List Int :=
  h.filterMap (fun e => match e with | .msg r => some r.r_op | .imp _ => none)

/-- Claim C2 as stated: some receive policy, which (like
`servicefs_msg_recv`) sees only the service state, delivers every send
history in exactly its send order. -/
def fifoDeliverable : Prop :=
  ∃ next : Service → Option (Item × Service),
    ∀ h : List SendEvent,
      drain next h.length (runSends emptyService h) = sentItems emptyService h

/-! ## Concrete inputs used by witnesses and counterexamples. -/

/-- A canceled service with one (service-side) open file. -/
def svcDead : Service := ⟨1, SERVICE_FLAGS_CANCELED, [], [], [], []⟩

/-- A live service with the default notification flags, one open file
and one connected channel. -/
def svcLive : Service := ⟨2, SERVICE_FLAGS_DEFAULT, [0], [], [], []⟩

/-- An oracle on which every fallible step succeeds. -/
def oracleOk : IoctlOracle := ⟨true, 0, 0, true, true, 0, 0⟩

/-- sendv parameters claiming the reserved attach code. -/
def spReserved : SendvParams := ⟨SERVICEFS_OP_UNIX_OPEN, false, 0, false, 0, false, 0⟩

/-- impulse parameters claiming the reserved detach code. -/
def ipReserved : ImpulseParams := ⟨SERVICEFS_OP_UNIX_CLOSE, false, 0⟩

/-- sendv parameters with a null send vector but one declared element. -/
def spNullVec : SendvParams := ⟨0, false, 1, true, 0, true, 0⟩

/-- impulse parameters with a null payload buffer but non-zero length. -/
def ipNullBuf : ImpulseParams := ⟨0, false, 3⟩

/-- Well-formed sendv parameters with an ordinary operation code. -/
def spPlain : SendvParams := ⟨3, true, 1, true, 1, true, 1⟩

/-- Well-formed impulse parameters with an ordinary operation code. -/
def ipPlain : ImpulseParams := ⟨3, true, 2⟩

/-- An ioctl command number belonging to no defined operation. -/
def cmdUnknownA : Nat := SERVICEFS_IOC_TYPE * 256 + 200

/-- Another ioctl command number belonging to no defined operation. -/
def cmdUnknownB : Nat := SERVICEFS_IOC_TYPE * 256 + 201

/-- A sample impulse. -/
def impA : Impulse := ⟨0, 0, 0, 0, 0, 7, [], 0⟩

/-- A sample transaction request. -/
def reqA : MsgReq := ⟨0, 0, 0, 0, 5, 0, 0, 0⟩

/-! ## Helper lemmas. -/

/-- The id issued by `firstFree` is not currently assigned. -/
theorem firstFree_not_mem (l : List Nat) : firstFree l ∉ l := by
  have hne : ((List.range (l.length + 1)).filter (fun n => n ∉ l)) ≠ [] := by
    intro hemp
    have hsub : (List.range (l.length + 1)) ⊆ l := by
      intro n hn
      by_contra hnl
      have hmem : n ∈ (List.range (l.length + 1)).filter (fun n => n ∉ l) := by
        rw [List.mem_filter]
        exact ⟨hn, by simpa using hnl⟩
      rw [hemp] at hmem
      simp at hmem
    have h1 : (List.range (l.length + 1)).toFinset ⊆ l.toFinset := by
      intro x hx
      simp only [List.mem_toFinset] at hx ⊢
      exact hsub hx
    have h2 := Finset.card_le_card h1
    have h3 : (List.range (l.length + 1)).toFinset.card = l.length + 1 := by
      simp [List.toFinset_card_of_nodup (List.nodup_range _)]
    have h4 := List.toFinset_card_le (l := l)
    omega
  have hmem : firstFree l ∈ (List.range (l.length + 1)).filter (fun n => n ∉ l) := by
    unfold firstFree
    cases hf : (List.range (l.length + 1)).filter (fun n => n ∉ l) with
    | nil => exact absurd hf hne
    | cons a t => simp [hf, List.headI]
  have := (List.mem_filter.mp hmem).2
  simpa using this

/-! ## Claim theorems. -/

/-- C3: the service-side poll reports the readable events
POLLIN|POLLRDNORM exactly when the service's pending-message queue or
its impulse queue is non-empty, and reports no events otherwise. -/
theorem c3_service_poll_readable_iff (svc : Service) :
    (service_poll svc = (POLLIN ||| POLLRDNORM) ↔
      svc.s_impulses ≠ [] ∨ svc.s_messages ≠ []) ∧
    (service_poll svc = 0 ↔ svc.s_impulses = [] ∧ svc.s_messages = []) := by
  have hmask : (POLLIN ||| POLLRDNORM) ≠ 0 := by decide
  by_cases hi : svc.s_impulses = [] <;> by_cases hm : svc.s_messages = [] <;>
    simp [service_poll, hi, hm, List.isEmpty_iff, hmask, Ne.symm hmask]

/-- C3 witness: a service with one queued impulse polls readable, the
empty service polls no events. -/
theorem c3_witness :
    ((service_poll ⟨1, 0, [], [impA], [], []⟩ = (POLLIN ||| POLLRDNORM) ↔
        ([impA] : List Impulse) ≠ [] ∨ ([] : List Message) ≠ []) ∧
      (service_poll ⟨1, 0, [], [impA], [], []⟩ = 0 ↔
        ([impA] : List Impulse) = [] ∧ ([] : List Message) = [])) ∧
    service_poll emptyService = 0 :=
  ⟨c3_service_poll_readable_iff ⟨1, 0, [], [impA], [], []⟩, by decide⟩

/-- C4: releasing a channel always succeeds (returns 0) and removes the
channel from the service's channel set, for every possible return value
of the best-effort close-notification send, which is attempted exactly
when the service is configured for close notification. -/
theorem c4_detach_always_succeeds (svc : Service) (cid : Nat) (notifyRes : Int) :
    (channel_release true svc cid notifyRes).ret = 0 ∧
    cid ∉ (channel_release true svc cid notifyRes).svc.s_channels ∧
    (svc.s_flags &&& SERVICE_FLAGS_CLOSE_NOTIFY ≠ 0 →
      (channel_release true svc cid notifyRes).actions =
        [.sendv TASK_UNINTERRUPTIBLE cid SERVICEFS_OP_UNIX_CLOSE 0 0 0]) ∧
    (svc.s_flags &&& SERVICE_FLAGS_CLOSE_NOTIFY = 0 →
      (channel_release true svc cid notifyRes).actions = []) := by
  unfold channel_release remove_channel
  refine ⟨by simp, ?_, ?_, ?_⟩
  · simp [List.mem_filter]
  · intro hf
    simp [hf]
  · intro hf
    simp [hf]

/-- C4 witness: releasing channel 0 of a live close-notifying service
returns 0 and unlinks the channel even when the notification send
reports failure (-ECANCELED here). -/
theorem c4_witness :
    (channel_release true svcLive 0 (-ECANCELED)).ret = 0 ∧
    0 ∉ (channel_release true svcLive 0 (-ECANCELED)).svc.s_channels ∧
    (svcLive.s_flags &&& SERVICE_FLAGS_CLOSE_NOTIFY ≠ 0 →
      (channel_release true svcLive 0 (-ECANCELED)).actions =
        [.sendv TASK_UNINTERRUPTIBLE 0 SERVICEFS_OP_UNIX_CLOSE 0 0 0]) ∧
    (svcLive.s_flags &&& SERVICE_FLAGS_CLOSE_NOTIFY = 0 →
      (channel_release true svcLive 0 (-ECANCELED)).actions = []) :=
  c4_detach_always_succeeds svcLive 0 (-ECANCELED)

/-- C5: the claim is right and the code is wrong.  An attach attempt
(a non-first open) on a canceled service fails, links no channel, but
returns -EINVAL instead of the Canceled error code: `initial_open`
flattens the failure of `get_new_channel` to -EINVAL, as its own TODO
comment (propagate error code from get_new_channel) records. -/
theorem c5_dead_service_attach_returns_einval (svc : Service) (nres : Int)
    (hcanc : isServiceCanceled svc = true) (hcount : 1 ≤ svc.s_count) :
    (initial_open true svc nres).ret = -EINVAL ∧
    (initial_open true svc nres).ret ≠ -ECANCELED ∧
    (initial_open true svc nres).svc.s_channels = svc.s_channels ∧
    (initial_open true svc nres).actions = [] := by
  have h2 : get_new_channel { svc with s_count := svc.s_count + 1 } = none := by
    have hc2 : isServiceCanceled { svc with s_count := svc.s_count + 1 } = true := hcanc
    unfold get_new_channel
    rw [if_pos hc2]
  have hmain : initial_open true svc nres =
      ⟨-EINVAL, .initialOps, { svc with s_count := svc.s_count + 1 }, []⟩ := by
    unfold initial_open
    rw [if_pos rfl, if_neg (show ¬(svc.s_count + 1 = 1) by omega), h2]
  rw [hmain]
  refine ⟨rfl, ?_, rfl, rfl⟩
  show (-EINVAL : Int) ≠ -ECANCELED
  decide

/-- C5 witness: at the concrete canceled service the attach returns
-EINVAL, not -ECANCELED, and the channel set stays empty. -/
theorem c5_witness :
    (initial_open true svcDead 0).ret = -EINVAL ∧
    (initial_open true svcDead 0).ret ≠ -ECANCELED ∧
    (initial_open true svcDead 0).svc.s_channels = svcDead.s_channels ∧
    (initial_open true svcDead 0).actions = [] :=
  c5_dead_service_attach_returns_einval svcDead 0 (by decide) (by decide)

/-- C6: on an attach (non-first open) to a live service configured for
open notification, `initial_open` performs exactly one call into the
sending layer — a zero-length uninterruptible sendv of the reserved
attach code on behalf of the freshly linked channel — and its return
value is the result of that send, so the send happens before the
attach call returns. -/
theorem c6_attach_notification_before_return (svc : Service) (nres : Int)
    (hlive : isServiceCanceled svc = false) (hcount : 1 ≤ svc.s_count)
    (hnotify : svc.s_flags &&& SERVICE_FLAGS_OPEN_NOTIFY ≠ 0) :
    ∃ cid, cid ∉ svc.s_channels ∧
      initial_open true svc nres =
        ⟨nres, .channelOps,
          { svc with s_count := svc.s_count + 1,
                     s_channels := svc.s_channels ++ [cid] },
          [.sendv TASK_UNINTERRUPTIBLE cid SERVICEFS_OP_UNIX_OPEN 0 0 0]⟩ := by
  refine ⟨firstFree svc.s_channels, firstFree_not_mem _, ?_⟩
  have hnc : ¬(isServiceCanceled { svc with s_count := svc.s_count + 1 } = true) := by
    intro hc
    have hc2 : isServiceCanceled svc = true := hc
    rw [hlive] at hc2
    exact Bool.noConfusion hc2
  have h2 : get_new_channel { svc with s_count := svc.s_count + 1 } =
      some (firstFree svc.s_channels,
        { svc with s_count := svc.s_count + 1,
                   s_channels := svc.s_channels ++ [firstFree svc.s_channels] }) := by
    unfold get_new_channel
    rw [if_neg hnc]
  unfold initial_open
  rw [if_pos rfl, if_neg (show ¬(svc.s_count + 1 = 1) by omega), h2]
  dsimp only
  rw [if_pos hnotify]

/-- C6 witness: attaching to a live open-notifying service with one
prior open yields exactly the uninterruptible zero-length attach send
and returns its result (-EFAULT here). -/
theorem c6_witness :
    ∃ cid, cid ∉ svcLive.s_channels ∧
      initial_open true svcLive (-EFAULT) =
        ⟨-EFAULT, .channelOps,
          { svcLive with s_count := svcLive.s_count + 1,
                         s_channels := svcLive.s_channels ++ [cid] },
          [.sendv TASK_UNINTERRUPTIBLE cid SERVICEFS_OP_UNIX_OPEN 0 0 0]⟩ :=
  c6_attach_notification_before_return svcLive (-EFAULT) (by decide) (by decide)
    (by decide)

/-- C7: a service-initiated channel creation links a fresh channel and
performs no call into the sending layer — in particular no attach
notification — whatever the service's notification flags are. -/
theorem c7_push_channel_skips_notification (svc : Service)
    (hlive : isServiceCanceled svc = false) :
    (create_channel_open true svc).ret = 0 ∧
    (create_channel_open true svc).actions = [] ∧
    firstFree svc.s_channels ∈ (create_channel_open true svc).svc.s_channels ∧
    firstFree svc.s_channels ∉ svc.s_channels ∧
    servicefs_create_channel true svc = some (create_channel_open true svc) := by
  have hnc : ¬(isServiceCanceled { svc with s_count := svc.s_count + 1 } = true) := by
    intro hc
    have hc2 : isServiceCanceled svc = true := hc
    rw [hlive] at hc2
    exact Bool.noConfusion hc2
  have h2 : get_new_channel { svc with s_count := svc.s_count + 1 } =
      some (firstFree svc.s_channels,
        { svc with s_count := svc.s_count + 1,
                   s_channels := svc.s_channels ++ [firstFree svc.s_channels] }) := by
    unfold get_new_channel
    rw [if_neg hnc]
  have hmain : create_channel_open true svc =
      ⟨0, .initialOps,
        { svc with s_count := svc.s_count + 1,
                   s_channels := svc.s_channels ++ [firstFree svc.s_channels] },
        []⟩ := by
    unfold create_channel_open
    rw [if_pos rfl, h2]
  refine ⟨by rw [hmain], by rw [hmain], ?_, firstFree_not_mem _, ?_⟩
  · rw [hmain]
    simp
  · unfold servicefs_create_channel
    rw [hmain]
    simp

/-- C7 witness: service-initiated creation on a live service with the
open-notification flag set links channel id 1 with no send action. -/
theorem c7_witness :
    (create_channel_open true svcLive).ret = 0 ∧
    (create_channel_open true svcLive).actions = [] ∧
    firstFree svcLive.s_channels ∈ (create_channel_open true svcLive).svc.s_channels ∧
    firstFree svcLive.s_channels ∉ svcLive.s_channels ∧
    servicefs_create_channel true svcLive = some (create_channel_open true svcLive) :=
  c7_push_channel_skips_notification svcLive (by decide)

/-- C1: a send-transaction or send-impulse call whose operation code is
one of the two reserved attach/detach notification codes fails with
-EINVAL and performs no call into the sending layer, so no message or
impulse is created or enqueued. -/
theorem c1_reserved_ops_rejected (cid : Nat) (sp : SendvParams)
    (ip : ImpulseParams) (o : IoctlOracle)
    (hs : sp.op = SERVICEFS_OP_UNIX_OPEN ∨ sp.op = SERVICEFS_OP_UNIX_CLOSE)
    (hi : ip.op = SERVICEFS_OP_UNIX_OPEN ∨ ip.op = SERVICEFS_OP_UNIX_CLOSE)
    (hc : o.copyOk = true) :
    channel_ioctl cid SERVICEFS_MSG_SENDV sp ip o = (-EINVAL, []) ∧
    channel_ioctl cid SERVICEFS_MSG_SEND_IMPULSE sp ip o = (-EINVAL, []) := by
  constructor
  · unfold channel_ioctl
    rw [if_neg (show ¬(ioc_type SERVICEFS_MSG_SENDV ≠ SERVICEFS_IOC_TYPE) by decide),
        if_neg (show ¬(SERVICEFS_IOCTL_MAX_NR < ioc_nr SERVICEFS_MSG_SENDV) by decide),
        if_pos rfl, if_neg (not_not_intro hc),
        if_pos (hs.elim Or.inl (fun h => Or.inr (Or.inl h)))]
  · unfold channel_ioctl
    rw [if_neg (show ¬(ioc_type SERVICEFS_MSG_SEND_IMPULSE ≠ SERVICEFS_IOC_TYPE) by decide),
        if_neg (show ¬(SERVICEFS_IOCTL_MAX_NR < ioc_nr SERVICEFS_MSG_SEND_IMPULSE) by decide),
        if_neg (show ¬(SERVICEFS_MSG_SEND_IMPULSE = SERVICEFS_MSG_SENDV) by decide),
        if_pos rfl, if_neg (not_not_intro hc),
        if_pos (hi.elim Or.inl (fun h => Or.inr (Or.inl h)))]

/-- C1 witness: sendv claiming the reserved attach code and an impulse
claiming the reserved detach code are both rejected with -EINVAL and
no send action. -/
theorem c1_witness :
    channel_ioctl 0 SERVICEFS_MSG_SENDV spReserved ipReserved oracleOk = (-EINVAL, []) ∧
    channel_ioctl 0 SERVICEFS_MSG_SEND_IMPULSE spReserved ipReserved oracleOk =
      (-EINVAL, []) :=
  c1_reserved_ops_rejected 0 spReserved ipReserved oracleOk (Or.inl rfl)
    (Or.inr rfl) rfl

/-- C8: a send-transaction call in which some array pointer is null
while its declared element count is non-zero, and a send-impulse call
with a null payload buffer and non-zero length, fail with -EINVAL and
perform no call into the sending layer, so no message is created. -/
theorem c8_null_array_nonzero_count_rejected (cid : Nat) (sp : SendvParams)
    (ip : ImpulseParams) (o : IoctlOracle)
    (hsp : (sp.svec = false ∧ sp.scnt ≠ 0) ∨ (sp.rvec = false ∧ sp.rcnt ≠ 0)
      ∨ (sp.fds = false ∧ sp.fdcnt ≠ 0))
    (hip : ip.buf = false ∧ ip.len ≠ 0)
    (hc : o.copyOk = true) :
    channel_ioctl cid SERVICEFS_MSG_SENDV sp ip o = (-EINVAL, []) ∧
    channel_ioctl cid SERVICEFS_MSG_SEND_IMPULSE sp ip o = (-EINVAL, []) := by
  constructor
  · have hcond : sp.op = SERVICEFS_OP_UNIX_OPEN ∨ sp.op = SERVICEFS_OP_UNIX_CLOSE
        ∨ (¬(sp.svec = true) ∧ sp.scnt ≠ 0) ∨ (¬(sp.rvec = true) ∧ sp.rcnt ≠ 0)
        ∨ (¬(sp.fds = true) ∧ sp.fdcnt ≠ 0) := by
      rcases hsp with ⟨h1, h2⟩ | ⟨h1, h2⟩ | ⟨h1, h2⟩
      · exact Or.inr (Or.inr (Or.inl ⟨by simp [h1], h2⟩))
      · exact Or.inr (Or.inr (Or.inr (Or.inl ⟨by simp [h1], h2⟩)))
      · exact Or.inr (Or.inr (Or.inr (Or.inr ⟨by simp [h1], h2⟩)))
    unfold channel_ioctl
    rw [if_neg (show ¬(ioc_type SERVICEFS_MSG_SENDV ≠ SERVICEFS_IOC_TYPE) by decide),
        if_neg (show ¬(SERVICEFS_IOCTL_MAX_NR < ioc_nr SERVICEFS_MSG_SENDV) by decide),
        if_pos rfl, if_neg (not_not_intro hc), if_pos hcond]
  · have hcond : ip.op = SERVICEFS_OP_UNIX_OPEN ∨ ip.op = SERVICEFS_OP_UNIX_CLOSE
        ∨ (¬(ip.buf = true) ∧ ip.len ≠ 0) :=
      Or.inr (Or.inr ⟨by simp [hip.1], hip.2⟩)
    unfold channel_ioctl
    rw [if_neg (show ¬(ioc_type SERVICEFS_MSG_SEND_IMPULSE ≠ SERVICEFS_IOC_TYPE) by decide),
        if_neg (show ¬(SERVICEFS_IOCTL_MAX_NR < ioc_nr SERVICEFS_MSG_SEND_IMPULSE) by decide),
        if_neg (show ¬(SERVICEFS_MSG_SEND_IMPULSE = SERVICEFS_MSG_SENDV) by decide),
        if_pos rfl, if_neg (not_not_intro hc), if_pos hcond]

/-- C8 witness: a null send vector with one declared element and a null
impulse buffer with length 3 are both rejected with -EINVAL. -/
theorem c8_witness :
    channel_ioctl 0 SERVICEFS_MSG_SENDV spNullVec ipNullBuf oracleOk = (-EINVAL, []) ∧
    channel_ioctl 0 SERVICEFS_MSG_SEND_IMPULSE spNullVec ipNullBuf oracleOk =
      (-EINVAL, []) :=
  c8_null_array_nonzero_count_rejected 0 spNullVec ipNullBuf oracleOk
    (Or.inl ⟨rfl, by decide⟩) ⟨rfl, by decide⟩ rfl

/-- C9 counterexample: a call carrying an unknown command fails with
-ENOTTY, which is a different error code from -EINVAL
(InvalidArgument), on both the channel and the service dispatcher. -/
theorem c9_counterexample :
    channel_ioctl 0 cmdUnknownA spPlain ipPlain oracleOk = (-ENOTTY, []) ∧
    service_ioctl cmdUnknownA ⟨true, 0, 0⟩ = -ENOTTY ∧
    (-ENOTTY : Int) ≠ -EINVAL := by
  decide

/-- C9 amended: a call carrying a command outside the defined channel
and service operation sets fails with -ENOTTY (the inappropriate-ioctl
error, not -EINVAL) and performs no call into the sending layer. -/
theorem c9_unknown_cmd_fails_enotty (cid : Nat) (cmd : Nat) (sp : SendvParams)
    (ip : ImpulseParams) (o : IoctlOracle) (so : ServiceIoctlOracle)
    (h1 : cmd ∉ channelCmds) (h2 : cmd ∉ serviceCmds) :
    channel_ioctl cid cmd sp ip o = (-ENOTTY, []) ∧
    service_ioctl cmd so = -ENOTTY := by
  simp only [channelCmds, List.mem_cons, List.not_mem_nil, or_false, not_or] at h1
  obtain ⟨h11, h12⟩ := h1
  constructor
  · unfold channel_ioctl
    by_cases ht : ioc_type cmd ≠ SERVICEFS_IOC_TYPE
    · rw [if_pos ht]
    · rw [if_neg ht]
      by_cases hn : SERVICEFS_IOCTL_MAX_NR < ioc_nr cmd
      · rw [if_pos hn]
      · rw [if_neg hn, if_neg h11, if_neg h12]
  · unfold service_ioctl
    by_cases ht : ioc_type cmd ≠ SERVICEFS_IOC_TYPE
    · rw [if_pos ht]
    · rw [if_neg ht]
      by_cases hn : SERVICEFS_IOCTL_MAX_NR < ioc_nr cmd
      · rw [if_pos hn]
      · rw [if_neg hn, if_neg h2]

/-- C9 witness: a second concrete unknown command fails with -ENOTTY
on both dispatchers. -/
theorem c9_witness :
    channel_ioctl 0 cmdUnknownB spPlain ipPlain oracleOk = (-ENOTTY, []) ∧
    service_ioctl cmdUnknownB ⟨true, 0, 0⟩ = -ENOTTY :=
  c9_unknown_cmd_fails_enotty 0 cmdUnknownB spPlain ipPlain oracleOk ⟨true, 0, 0⟩
    (by decide) (by decide)

/-- C2 counterexample: no receive policy working from the service state
can return sends in cross-kind send order, because the state keeps
messages and impulses in two separate lists with no cross-kind ordering
data.  Sending an impulse then a message leaves exactly the same
service state as sending the message first, while the two send orders
differ. -/
theorem c2_counterexample_no_single_fifo : ¬fifoDeliverable := by
  rintro ⟨next, hnext⟩
  have h1 := hnext [SendEvent.imp impA, SendEvent.msg reqA]
  have h2 := hnext [SendEvent.msg reqA, SendEvent.imp impA]
  have hs : runSends emptyService [SendEvent.imp impA, SendEvent.msg reqA] =
      runSends emptyService [SendEvent.msg reqA, SendEvent.imp impA] := by
    decide
  rw [hs] at h1
  have heq := h1.symm.trans h2
  exact absurd heq (by decide)

/-- C2 amended: each kind is FIFO on its own queue — after any sequence
of sends the pending message queue holds the transactions in send order
and the impulse queue holds the impulses in send order; the two queues
are separate, so the cross-kind send order is not recorded in the
service state. -/
theorem c2_amended_fifo_per_kind (svc : Service) (h : List SendEvent) :
    (runSends svc h).s_impulses = svc.s_impulses ++ impulsesOf h ∧
    (runSends svc h).s_messages.map Message.m_op =
      svc.s_messages.map Message.m_op ++ msgOpsOf h := by
  induction h generalizing svc with
  | nil => simp [runSends, impulsesOf, msgOpsOf]
  | cons e t ih =>
    cases e with
    | msg r =>
      have hstep : runSends svc (SendEvent.msg r :: t) =
          runSends (enqueue_message svc r) t := rfl
      rw [hstep]
      obtain ⟨ih1, ih2⟩ := ih (enqueue_message svc r)
      constructor
      · rw [ih1]
        simp [enqueue_message, impulsesOf]
      · rw [ih2]
        simp [enqueue_message, mkMessage, msgOpsOf, List.map_append,
          List.append_assoc]
    | imp i =>
      have hstep : runSends svc (SendEvent.imp i :: t) =
          runSends (enqueue_impulse svc i) t := rfl
      rw [hstep]
      obtain ⟨ih1, ih2⟩ := ih (enqueue_impulse svc i)
      constructor
      · rw [ih1]
        simp [enqueue_impulse, impulsesOf, List.append_assoc]
      · rw [ih2]
        simp [enqueue_impulse, msgOpsOf]

/-- C10 counterexample: a subsequent open (reference count 1 → 2) of a
canceled service creates no channel and leaves the file answering
neither operation set: the claim that every subsequent open creates a
channel fails at this input. -/
theorem c10_counterexample :
    (initial_open true svcDead 0).fop ≠ FileOps.channelOps ∧
    (initial_open true svcDead 0).svc.s_channels = [] ∧
    (initial_open true svcDead 0).ret = -EINVAL := by
  decide

/-- C10 amended: the open taking the count from zero to one becomes
the service side unconditionally; every subsequent open either links a
fresh channel and answers the channel operation set (when channel
creation succeeds, i.e. the service is live) or fails with -EINVAL
leaving the channel set unchanged (when the service is canceled). -/
theorem c10_amended_open_roles (svc : Service) (nres : Int)
    (hc : 1 ≤ svc.s_count) :
    (isServiceCanceled svc = false →
      (initial_open true svc nres).fop = FileOps.channelOps ∧
      firstFree svc.s_channels ∈ (initial_open true svc nres).svc.s_channels ∧
      firstFree svc.s_channels ∉ svc.s_channels) ∧
    (isServiceCanceled svc = true →
      (initial_open true svc nres).ret = -EINVAL ∧
      (initial_open true svc nres).fop = FileOps.initialOps ∧
      (initial_open true svc nres).svc.s_channels = svc.s_channels) ∧
    (∀ s0 : Service, ∀ m : Int, s0.s_count = 0 →
      initial_open true s0 m =
        ⟨0, FileOps.serviceOps, { s0 with s_count := s0.s_count + 1 }, []⟩) := by
  refine ⟨?_, ?_, ?_⟩
  · intro hlive
    have hnc : ¬(isServiceCanceled { svc with s_count := svc.s_count + 1 } = true) := by
      intro hx
      have hx2 : isServiceCanceled svc = true := hx
      rw [hlive] at hx2
      exact Bool.noConfusion hx2
    have h2 : get_new_channel { svc with s_count := svc.s_count + 1 } =
        some (firstFree svc.s_channels,
          { svc with s_count := svc.s_count + 1,
                     s_channels := svc.s_channels ++ [firstFree svc.s_channels] }) := by
      unfold get_new_channel
      rw [if_neg hnc]
    unfold initial_open
    rw [if_pos rfl, if_neg (show ¬(svc.s_count + 1 = 1) by omega), h2]
    dsimp only
    by_cases hnot : svc.s_flags &&& SERVICE_FLAGS_OPEN_NOTIFY ≠ 0
    · rw [if_pos hnot]
      exact ⟨rfl, by simp, firstFree_not_mem _⟩
    · rw [if_neg hnot]
      exact ⟨rfl, by simp, firstFree_not_mem _⟩
  · intro hcanc
    have h2 : get_new_channel { svc with s_count := svc.s_count + 1 } = none := by
      have hc2 : isServiceCanceled { svc with s_count := svc.s_count + 1 } = true := hcanc
      unfold get_new_channel
      rw [if_pos hc2]
    unfold initial_open
    rw [if_pos rfl, if_neg (show ¬(svc.s_count + 1 = 1) by omega), h2]
    exact ⟨rfl, rfl, rfl⟩
  · intro s0 m h0
    unfold initial_open
    rw [if_pos rfl, if_pos (show s0.s_count + 1 = 1 by omega)]

/-- C10 witness: on a live service with one prior open, the next open
links a fresh channel and answers the channel operation set. -/
theorem c10_witness :
    (isServiceCanceled svcLive = false →
      (initial_open true svcLive 0).fop = FileOps.channelOps ∧
      firstFree svcLive.s_channels ∈ (initial_open true svcLive 0).svc.s_channels ∧
      firstFree svcLive.s_channels ∉ svcLive.s_channels) ∧
    (isServiceCanceled svcLive = true →
      (initial_open true svcLive 0).ret = -EINVAL ∧
      (initial_open true svcLive 0).fop = FileOps.initialOps ∧
      (initial_open true svcLive 0).svc.s_channels = svcLive.s_channels) ∧
    (∀ s0 : Service, ∀ m : Int, s0.s_count = 0 →
      initial_open true s0 m =
        ⟨0, FileOps.serviceOps, { s0 with s_count := s0.s_count + 1 }, []⟩) :=
  c10_amended_open_roles svcLive 0 (by decide)

end Servicefs
